import Mathlib

/-!
Shallow embedding of the SX1276 radio driver (src/SX1276.h, src/SX1276.cpp),
built with both LORA_ENABLED and FSK_OOK_ENABLED defined, as in the shipped
header.  The chip's register file is a function `Nat → Nat` holding the last
value the driver wrote to each address; registers that the hardware sets
autonomously (IRQ flags, packet length, RSSI, FIFO contents, the DIO0 line)
are supplied as explicit oracle inputs.  Every register-level bus access is
recorded in an event trace.
-/

namespace SX1276

/-- Register file: address to last written byte value. -/
abbrev RegFile := Nat → Nat

/-- Point update of a register file (effect of `writeRegister`). -/
def wr (regs : RegFile) (a v : Nat) : RegFile := fun x => if x = a then v else regs x

/-- Bus / SPI events observable at the register level. -/
inductive Event where
  | writeReg (addr val : Nat)
  | readReg (addr val : Nat)
  | fifoWr (bytes : List Nat)
  | fifoRd (count : Nat)
  deriving DecidableEq, Repr

/-- Driver-owned configuration, mirroring the private fields of class SX1276
(with both modulation families compiled in). -/
structure Driver where
  freq : Nat
  power : Int
  useBoost : Bool
  modulation : Nat
  bw : Nat
  sf : Nat
  cr : Nat
  preambleLength : Nat
  syncWord : Nat
  crcEnabled : Bool
  bitrate : Nat
  freqDev : Nat
  rxBw : Nat
  syncWordFSK : List Nat
  syncWordLen : Nat
  preambleLengthFSK : Nat
  fixedLength : Bool
  crcOnFSK : Bool
  lastRSSI : Int
  deriving Repr

/-- Result of a mode-control operation: return code, register file, trace. -/
structure MOut where
  ret : Int
  regs : RegFile
  trace : List Event

/-- Result of a configuration setter: return code, driver state, register
file, trace. -/
structure SetOut where
  ret : Int
  drv : Driver
  regs : RegFile
  trace : List Event

/-- SX1276::setMode.  `modulationMask = SX1276_LORA_MODE | SX1276_FSK_OOK_MODE
= 0x80`; `mode & ~modulationMask` on a uint8 is `mode &&& 0x7F`.  When the
caller's mode carries no modulation bits the current OP_MODE register (0x01)
is read back and its family bit re-applied. -/
def setMode (regs : RegFile) (mode : Nat) : MOut :=
  if mode &&& 0x80 = 0 then
    let cur := regs 0x01
    let newOp := (mode &&& 0x7F) ||| (cur &&& 0x80)
    ⟨0, wr regs 0x01 newOp, [.readReg 0x01 cur, .writeReg 0x01 newOp]⟩
  else
    let newOp := (mode &&& 0x7F) ||| (mode &&& 0x80)
    ⟨0, wr regs 0x01 newOp, [.writeReg 0x01 newOp]⟩

/-- SX1276::standby: setMode(SX1276_MODE_STDBY). -/
def standby (regs : RegFile) : MOut := setMode regs 0x01

/-- SX1276::sleep (both families compiled in): re-asserts the stored
modulation family explicitly. -/
def sleep (drv : Driver) (regs : RegFile) : MOut :=
  if drv.modulation = 2 then setMode regs (0x00 ||| 0x80)
  else setMode regs (0x00 ||| 0x00)

/-- The FRF register value computed by SX1276::setFrequency:
`frf = ((uint64_t)freq << 19) / SX1276_FXOSC` with FXOSC = 32000000. -/
def frfOf (freq : Nat) : Nat := (freq <<< 19) / 32000000

/-- SX1276::setFrequency(long): rejects frequencies outside
[137000000, 1020000000] Hz with SX1276_ERR_INVALID_FREQUENCY (-9) before any
register write, else stores the frequency and writes FRF MSB (0x06),
MID (0x07), LSB (0x08) in that order. -/
def setFrequency (drv : Driver) (regs : RegFile) (freq : Int) : SetOut :=
  if freq < 137000000 ∨ freq > 1020000000 then ⟨-9, drv, regs, []⟩
  else
    let drv2 := {drv with freq := freq.toNat}
    let frf := frfOf freq.toNat
    let v1 := (frf >>> 16) &&& 0xFF
    let v2 := (frf >>> 8) &&& 0xFF
    let v3 := frf &&& 0xFF
    ⟨0, drv2, wr (wr (wr regs 0x06 v1) 0x07 v2) 0x08 v3,
      [.writeReg 0x06 v1, .writeReg 0x07 v2, .writeReg 0x08 v3]⟩

/-- Register-level power on the PA_BOOST path of SX1276::setPower: the local
`power` variable after the clamps (`>20 → 20` then `-3` when above 17, floor
clamp at 2 otherwise). -/
def boostLevel (p : Int) : Int :=
  if p > 17 then (if p > 20 then 20 else p) - 3
  else if p < 2 then 2 else p

/-- Register-level power on the RFO path of SX1276::setPower (clamped to
[-1, 14]). -/
def rfoLevel (p : Int) : Int :=
  if p > 14 then 14 else if p < -1 then -1 else p

/-- The PA_DAC register value written by SX1276::setPower: 0x87 (high power)
when boosting above 17 dBm, else the 0x84 default. -/
def paDacOf (p : Int) (useBoost : Bool) : Nat :=
  if useBoost ∧ p > 17 then 0x87 else 0x84

/-- The PA_CONFIG register value written by SX1276::setPower:
`SX1276_PA_BOOST | (power - 2)` on the boost path,
`SX1276_MAX_POWER | (power + 1)` on the RFO path. -/
def paConfigOf (p : Int) (useBoost : Bool) : Nat :=
  if useBoost then 0x80 ||| (boostLevel p - 2).toNat
  else 0x70 ||| (rfoLevel p + 1).toNat

/-- SX1276::setPower: stores power/useBoost, then always writes PA_CONFIG
(0x09) and PA_DAC (0x4D); never fails. -/
def setPower (drv : Driver) (regs : RegFile) (p : Int) (useBoost : Bool) : SetOut :=
  ⟨0, {drv with power := p, useBoost := useBoost},
    wr (wr regs 0x09 (paConfigOf p useBoost)) 0x4D (paDacOf p useBoost),
    [.writeReg 0x09 (paConfigOf p useBoost), .writeReg 0x4D (paDacOf p useBoost)]⟩

/-- SX1276::setBandwidth: rejects encodings above SX1276_BW_500_KHZ (0x90)
with SX1276_ERR_INVALID_BANDWIDTH (-6); else read-modify-writes the high
nibble of MODEM_CONFIG_1 (0x1D). -/
def setBandwidth (drv : Driver) (regs : RegFile) (bw : Nat) : SetOut :=
  if bw > 0x90 then ⟨-6, drv, regs, []⟩
  else
    let c1 := regs 0x1D
    let c1' := (c1 &&& 0x0F) ||| bw
    ⟨0, {drv with bw := bw}, wr regs 0x1D c1',
      [.readReg 0x1D c1, .writeReg 0x1D c1']⟩

/-- SX1276::setSpreadingFactor: rejects sf outside [6, 12] with
SX1276_ERR_INVALID_SPREADING_FACTOR (-7); else read-modify-writes the high
nibble of MODEM_CONFIG_2 (0x1E) and programs DETECTION_OPTIMIZE (0x31) /
DETECTION_THRESHOLD (0x37) with (0x05, 0x0C) for SF6 and (0x03, 0x0A)
otherwise. -/
def setSpreadingFactor (drv : Driver) (regs : RegFile) (sf : Nat) : SetOut :=
  if sf < 6 ∨ sf > 12 then ⟨-7, drv, regs, []⟩
  else
    let c2 := regs 0x1E
    let c2' := (c2 &&& 0x0F) ||| (sf <<< 4)
    let r1 := wr regs 0x1E c2'
    if sf = 6 then
      ⟨0, {drv with sf := sf}, wr (wr r1 0x31 0x05) 0x37 0x0C,
        [.readReg 0x1E c2, .writeReg 0x1E c2', .writeReg 0x31 0x05, .writeReg 0x37 0x0C]⟩
    else
      ⟨0, {drv with sf := sf}, wr (wr r1 0x31 0x03) 0x37 0x0A,
        [.readReg 0x1E c2, .writeReg 0x1E c2', .writeReg 0x31 0x03, .writeReg 0x37 0x0A]⟩

/-- SX1276::setCodingRate: rejects encodings outside
[SX1276_CR_4_5, SX1276_CR_4_8] = [2, 8] with
SX1276_ERR_INVALID_CODING_RATE (-8); else read-modify-writes bits 3:1 of
MODEM_CONFIG_1 (mask 0xF1). -/
def setCodingRate (drv : Driver) (regs : RegFile) (cr : Nat) : SetOut :=
  if cr < 2 ∨ cr > 8 then ⟨-8, drv, regs, []⟩
  else
    let c1 := regs 0x1D
    let c1' := (c1 &&& 0xF1) ||| cr
    ⟨0, {drv with cr := cr}, wr regs 0x1D c1',
      [.readReg 0x1D c1, .writeReg 0x1D c1']⟩

/-- SX1276::setPreambleLength: dispatches on the stored modulation; LoRa
writes PREAMBLE_MSB/LSB (0x20/0x21), FSK/OOK writes the FSK pair
(0x25/0x26); any other modulation returns SX1276_ERR_WRONG_MODEM (-14). -/
def setPreambleLength (drv : Driver) (regs : RegFile) (len : Nat) : SetOut :=
  if drv.modulation = 2 then
    ⟨0, {drv with preambleLength := len},
      wr (wr regs 0x20 ((len >>> 8) &&& 0xFF)) 0x21 (len &&& 0xFF),
      [.writeReg 0x20 ((len >>> 8) &&& 0xFF), .writeReg 0x21 (len &&& 0xFF)]⟩
  else if drv.modulation = 0 ∨ drv.modulation = 1 then
    ⟨0, {drv with preambleLengthFSK := len},
      wr (wr regs 0x25 ((len >>> 8) &&& 0xFF)) 0x26 (len &&& 0xFF),
      [.writeReg 0x25 ((len >>> 8) &&& 0xFF), .writeReg 0x26 (len &&& 0xFF)]⟩
  else ⟨-14, drv, regs, []⟩

/-- SX1276::setSyncWord(uint8_t), LoRa form: unconditional single write of
REG_SYNC_WORD (0x39). -/
def setSyncWordLoRa (drv : Driver) (regs : RegFile) (sw : Nat) : SetOut :=
  ⟨0, {drv with syncWord := sw}, wr regs 0x39 sw, [.writeReg 0x39 sw]⟩

/-- SX1276::setCRC: read-modify-write of bit 2 of MODEM_CONFIG_2. -/
def setCRC (drv : Driver) (regs : RegFile) (enable : Bool) : SetOut :=
  let c2 := regs 0x1E
  let c2' := if enable then c2 ||| 0x04 else c2 &&& 0xFB
  ⟨0, {drv with crcEnabled := enable}, wr regs 0x1E c2',
    [.readReg 0x1E c2, .writeReg 0x1E c2']⟩

/-- SX1276::setBitrate: rejects bitrates outside [1200, 300000] bps with
SX1276_ERR_INVALID_BITRATE (-11); else writes FXOSC / bitrate to
BITRATE_MSB/LSB (0x02/0x03). -/
def setBitrate (drv : Driver) (regs : RegFile) (bitrate : Nat) : SetOut :=
  if bitrate < 1200 ∨ bitrate > 300000 then ⟨-11, drv, regs, []⟩
  else
    let bitrateReg := 32000000 / bitrate
    ⟨0, {drv with bitrate := bitrate},
      wr (wr regs 0x02 ((bitrateReg >>> 8) &&& 0xFF)) 0x03 (bitrateReg &&& 0xFF),
      [.writeReg 0x02 ((bitrateReg >>> 8) &&& 0xFF), .writeReg 0x03 (bitrateReg &&& 0xFF)]⟩

/-- SX1276::setFrequencyDeviation: legal values are 0 or [600, 200000] Hz,
else SX1276_ERR_INVALID_FREQUENCY_DEVIATION (-12); the register value uses
the same 19-bit frequency-step scaling, MSB masked to 6 bits. -/
def setFrequencyDeviation (drv : Driver) (regs : RegFile) (freqDev : Nat) : SetOut :=
  if freqDev ≠ 0 ∧ (freqDev < 600 ∨ freqDev > 200000) then ⟨-12, drv, regs, []⟩
  else
    let fdevReg := (freqDev <<< 19) / 32000000
    ⟨0, {drv with freqDev := freqDev},
      wr (wr regs 0x04 ((fdevReg >>> 8) &&& 0x3F)) 0x05 (fdevReg &&& 0xFF),
      [.writeReg 0x04 ((fdevReg >>> 8) &&& 0x3F), .writeReg 0x05 (fdevReg &&& 0xFF)]⟩

/-- SX1276::setRxBandwidth: unconditional single write of REG_RX_BW (0x12). -/
def setRxBandwidth (drv : Driver) (regs : RegFile) (rxBw : Nat) : SetOut :=
  ⟨0, {drv with rxBw := rxBw}, wr regs 0x12 rxBw, [.writeReg 0x12 rxBw]⟩

/-- Writes a list of bytes to consecutive register addresses starting at
`base` (the sync-value register block). -/
def wrList (regs : RegFile) (base : Nat) : List Nat → RegFile
  | [] => regs
  | b :: rest => wrList (wr regs base b) (base + 1) rest

/-- SX1276::setSyncWord(const uint8_t*, uint8_t), FSK form: rejects lengths
outside [1, 8] with SX1276_ERR_INVALID_SYNC_WORD (-13); else stores the
word, writes SYNC_CONFIG (0x27) with sync-on, FIFO-fill bits and (len-1),
then the sync bytes to SYNC_VALUE_1.. (0x28..). -/
def setSyncWordFSK (drv : Driver) (regs : RegFile) (sw : List Nat) (len : Nat) : SetOut :=
  if len < 1 ∨ len > 8 then ⟨-13, drv, regs, []⟩
  else
    let bytes := (List.range len).map (fun i => sw.getD i 0)
    let cfg := 0x90 ||| ((len - 1) &&& 0x07)
    ⟨0, {drv with syncWordFSK := bytes, syncWordLen := len},
      wrList (wr regs 0x27 cfg) 0x28 bytes,
      .writeReg 0x27 cfg ::
        (List.range len).map (fun i => .writeReg (0x28 + i) (sw.getD i 0))⟩

/-- SX1276::setPacketConfig: composes PACKET_CONFIG_1 (0x30) from the
fixed-length flag (bit 7) and CRC flag (bit 4), and writes PACKET_CONFIG_2
(0x31) with the packet-mode bit 0x40. -/
def setPacketConfig (drv : Driver) (regs : RegFile) (fixedLength crcOn : Bool) : SetOut :=
  let c1 := (if fixedLength then 0x80 else 0x00) ||| (if crcOn then 0x10 else 0x00)
  ⟨0, {drv with fixedLength := fixedLength, crcOnFSK := crcOn},
    wr (wr regs 0x30 c1) 0x31 0x40,
    [.writeReg 0x30 c1, .writeReg 0x31 0x40]⟩

/-- The DIO0 polling loop of transmit/receive in LoRa mode:
`while (digitalRead(_dio0Pin) == LOW) { if (millis() - start > limit) ...
timeout ...; yield(); }`.  `pin k` is the DIO0 level and `elapsed k` the
value of `millis() - start` observed in iteration k; `fuel` bounds the
number of iterations modelled (`none` = fuel exhausted, `some true` =
pin went high, `some false` = timeout). -/
def dioPoll (pin : Nat → Bool) (elapsed : Nat → Nat) (limit : Nat) :
    Nat → Nat → Option Bool
  | _, 0 => none
  | k, fuel + 1 =>
    if pin k then some true
    else if elapsed k > limit then some false
    else dioPoll pin elapsed limit (k + 1) fuel

/-- The IRQ_FLAGS_2 polling loop of transmit/receive in FSK/OOK mode:
`while (!(readRegister(SX1276_REG_IRQ_FLAGS_2) & mask)) { ... }` with the
observed register values `irq2 k` supplied by the environment; every poll
is a bus read and is recorded in the returned trace. -/
def fskPoll (irq2 : Nat → Nat) (elapsed : Nat → Nat) (mask limit : Nat) :
    Nat → Nat → Option Bool × List Event
  | _, 0 => (none, [])
  | k, fuel + 1 =>
    if irq2 k &&& mask ≠ 0 then (some true, [.readReg 0x3F (irq2 k)])
    else if elapsed k > limit then (some false, [.readReg 0x3F (irq2 k)])
    else
      ((fskPoll irq2 elapsed mask limit (k + 1) fuel).1,
        .readReg 0x3F (irq2 k) :: (fskPoll irq2 elapsed mask limit (k + 1) fuel).2)

/-- Result of a transmit run: return code (`none` when the modelled poll
fuel ran out), final register file, trace. -/
structure TxOut where
  ret : Option Int
  regs : RegFile
  trace : List Event

/-- SX1276::transmit (both families compiled in).  `data` is the payload
(`len = data.length`), `pin`/`elapsed` model the DIO0 polling environment
and `irq2` the IRQ_FLAGS_2 values observed while polling in FSK mode. -/
def transmit (drv : Driver) (regs : RegFile) (data : List Nat)
    (pin : Nat → Bool) (elapsed : Nat → Nat) (irq2 : Nat → Nat) (fuel : Nat) : TxOut :=
  if data.length > 255 then ⟨some (-2), regs, []⟩
  else
    let m1 := standby regs
    if m1.ret ≠ 0 then ⟨some m1.ret, m1.regs, m1.trace⟩
    else if drv.modulation = 2 then
      let r4 := wr (wr (wr m1.regs 0x40 0x40) 0x12 0xFF) 0x0D 0x00
      let r5 := wr r4 0x22 data.length
      let t5 := m1.trace ++ [.writeReg 0x40 0x40, .writeReg 0x12 0xFF,
        .writeReg 0x0D 0x00, .fifoWr data, .writeReg 0x22 data.length]
      let m2 := setMode r5 0x03
      let t6 := t5 ++ m2.trace
      if m2.ret ≠ 0 then ⟨some m2.ret, m2.regs, t6⟩
      else
        match dioPoll pin elapsed 5000 0 fuel with
        | none => ⟨none, m2.regs, t6⟩
        | some false =>
          let m3 := standby m2.regs
          ⟨some (-3), m3.regs, t6 ++ m3.trace⟩
        | some true =>
          let m3 := standby (wr m2.regs 0x12 0xFF)
          ⟨some m3.ret, m3.regs, t6 ++ [.writeReg 0x12 0xFF] ++ m3.trace⟩
    else if drv.modulation = 0 ∨ drv.modulation = 1 then
      let r2 := wr m1.regs 0x32 data.length
      let fifoBytes := if drv.fixedLength then data else data.length :: data
      let t2 := m1.trace ++ [.writeReg 0x32 data.length, .fifoWr fifoBytes]
      let m2 := setMode r2 0x03
      let t3 := t2 ++ m2.trace
      if m2.ret ≠ 0 then ⟨some m2.ret, m2.regs, t3⟩
      else
        let p := fskPoll irq2 elapsed 0x08 5000 0 fuel
        let t4 := t3 ++ p.2
        match p.1 with
        | none => ⟨none, m2.regs, t4⟩
        | some false =>
          let m3 := standby m2.regs
          ⟨some (-3), m3.regs, t4 ++ m3.trace⟩
        | some true =>
          let m3 := standby m2.regs
          ⟨some m3.ret, m3.regs, t4 ++ m3.trace⟩
    else
      ⟨some m1.ret, m1.regs, m1.trace⟩

/-- Environment oracles for a receive run: DIO0 level and elapsed time per
poll iteration, IRQ_FLAGS_2 values per FSK poll, the post-poll reads of
IRQ_FLAGS (LoRa), IRQ_FLAGS_2 (FSK CRC check), RX_NB_BYTES,
FIFO_RX_CURRENT_ADDR, PAYLOAD_LENGTH (FSK fixed mode), the instantaneous
RSSI register, and the FIFO byte stream. -/
structure RxEnv where
  pin : Nat → Bool
  elapsed : Nat → Nat
  irq2 : Nat → Nat
  irqAfter : Nat
  irqCrc : Nat
  nbBytes : Nat
  curAddr : Nat
  lenReg : Nat
  rssiRaw : Nat
  fifo : Nat → Nat

/-- Result of a receive run: return code (`none` when the modelled poll fuel
ran out), driver state, final register file, trace, and the bytes stored
into the caller's buffer. -/
structure RxOut where
  ret : Option Int
  drv : Driver
  regs : RegFile
  trace : List Event
  out : List Nat

/-- SX1276::receive (both families compiled in). -/
def receive (drv : Driver) (regs : RegFile) (maxLen : Nat) (env : RxEnv)
    (fuel : Nat) : RxOut :=
  if drv.modulation = 2 then
    let m1 := standby regs
    if m1.ret ≠ 0 then ⟨some m1.ret, drv, m1.regs, m1.trace, []⟩
    else
      let r4 := wr (wr (wr m1.regs 0x40 0x00) 0x12 0xFF) 0x0D 0x00
      let t4 := m1.trace ++ [.writeReg 0x40 0x00, .writeReg 0x12 0xFF,
        .writeReg 0x0D 0x00]
      let m2 := setMode r4 0x05
      let t5 := t4 ++ m2.trace
      if m2.ret ≠ 0 then ⟨some m2.ret, drv, m2.regs, t5, []⟩
      else
        match dioPoll env.pin env.elapsed 10000 0 fuel with
        | none => ⟨none, drv, m2.regs, t5, []⟩
        | some false =>
          let m3 := standby m2.regs
          ⟨some (-4), drv, m3.regs, t5 ++ m3.trace, []⟩
        | some true =>
          let t6 := t5 ++ [.readReg 0x12 env.irqAfter]
          if env.irqAfter &&& 0x20 ≠ 0 then
            let m3 := standby (wr m2.regs 0x12 0xFF)
            ⟨some (-5), drv, m3.regs, t6 ++ [.writeReg 0x12 0xFF] ++ m3.trace, []⟩
          else
            let len := min env.nbBytes maxLen
            let out := (List.range len).map env.fifo
            let t8 := t6 ++ [.readReg 0x13 env.nbBytes, .readReg 0x10 env.curAddr,
              .writeReg 0x0D env.curAddr, .fifoRd len, .writeReg 0x12 0xFF]
            let m3 := standby (wr (wr m2.regs 0x0D env.curAddr) 0x12 0xFF)
            ⟨some (Int.ofNat len), drv, m3.regs, t8 ++ m3.trace, out⟩
  else if drv.modulation = 0 ∨ drv.modulation = 1 then
    let m1 := standby regs
    if m1.ret ≠ 0 then ⟨some m1.ret, drv, m1.regs, m1.trace, []⟩
    else
      let r3 := wr (wr m1.regs 0x3E 0xFF) 0x3F 0xFF
      let t3 := m1.trace ++ [.writeReg 0x3E 0xFF, .writeReg 0x3F 0xFF]
      let m2 := setMode r3 0x05
      let t4 := t3 ++ m2.trace
      if m2.ret ≠ 0 then ⟨some m2.ret, drv, m2.regs, t4, []⟩
      else
        let p := fskPoll env.irq2 env.elapsed 0x04 10000 0 fuel
        let t5 := t4 ++ p.2
        match p.1 with
        | none => ⟨none, drv, m2.regs, t5, []⟩
        | some false =>
          let m3 := standby m2.regs
          ⟨some (-4), drv, m3.regs, t5 ++ m3.trace, []⟩
        | some true =>
          let t6 := if drv.crcOnFSK then t5 ++ [.readReg 0x3F env.irqCrc] else t5
          if drv.crcOnFSK = true ∧ env.irqCrc &&& 0x02 = 0 then
            let m3 := standby m2.regs
            ⟨some (-5), drv, m3.regs, t6 ++ m3.trace, []⟩
          else
            let drv2 := {drv with lastRSSI := -(Int.ofNat (env.rssiRaw / 2))}
            let t7 := t6 ++ [.readReg 0x11 env.rssiRaw]
            if drv.fixedLength then
              let len := min env.lenReg maxLen
              let out := (List.range len).map env.fifo
              let t8 := t7 ++ [.readReg 0x32 env.lenReg, .fifoRd len]
              let m3 := standby m2.regs
              ⟨some (Int.ofNat len), drv2, m3.regs, t8 ++ m3.trace, out⟩
            else
              let len := min (env.fifo 0) maxLen
              let out := (List.range len).map (fun i => env.fifo (i + 1))
              let t8 := t7 ++ [.fifoRd (len + 1)]
              let m3 := standby m2.regs
              ⟨some (Int.ofNat len), drv2, m3.regs, t8 ++ m3.trace, out⟩
  else ⟨some (-14), drv, regs, [], []⟩

/-- SX1276::configFSK, the full FSK/OOK bring-up sequence: sleep with the
FSK/OOK family bits, select the FSK or OOK sub-mode bit, standby, then
frequency, bitrate, deviation (FSK only), RX bandwidth followed by the
AFC-bandwidth mirror write, power, OCP, RSSI threshold, RX config, FIFO
overrun clear, the three RX-timeout disables, preamble detector, preamble
length, sync word, packet config, max payload length, FIFO threshold,
sequencer, and the DIO0 mapping; each fallible setter's error aborts the
sequence. -/
def configFSK (drv : Driver) (regs : RegFile) : SetOut :=
  let r1 := wr regs 0x01 0x00
  let cur := r1 0x01
  let op2 := if drv.modulation = 1 then cur ||| 0x20 else cur &&& 0xDF
  let r2 := wr r1 0x01 op2
  let t2 : List Event := [.writeReg 0x01 0x00, .readReg 0x01 cur, .writeReg 0x01 op2]
  let m1 := standby r2
  let t3 := t2 ++ m1.trace
  if m1.ret ≠ 0 then ⟨m1.ret, drv, m1.regs, t3⟩ else
  let s1 := setFrequency drv m1.regs (drv.freq : Int)
  let t4 := t3 ++ s1.trace
  if s1.ret ≠ 0 then ⟨s1.ret, s1.drv, s1.regs, t4⟩ else
  let s2 := setBitrate s1.drv s1.regs s1.drv.bitrate
  let t5 := t4 ++ s2.trace
  if s2.ret ≠ 0 then ⟨s2.ret, s2.drv, s2.regs, t5⟩ else
  let s3 := if drv.modulation = 0 then setFrequencyDeviation s2.drv s2.regs s2.drv.freqDev
            else ⟨0, s2.drv, s2.regs, []⟩
  let t6 := t5 ++ s3.trace
  if s3.ret ≠ 0 then ⟨s3.ret, s3.drv, s3.regs, t6⟩ else
  let s4 := setRxBandwidth s3.drv s3.regs s3.drv.rxBw
  let t7 := t6 ++ s4.trace
  if s4.ret ≠ 0 then ⟨s4.ret, s4.drv, s4.regs, t7⟩ else
  let r3 := wr s4.regs 0x13 s4.drv.rxBw
  let t8 := t7 ++ [.writeReg 0x13 s4.drv.rxBw]
  let s5 := setPower s4.drv r3 s4.drv.power s4.drv.useBoost
  let t9 := t8 ++ s5.trace
  if s5.ret ≠ 0 then ⟨s5.ret, s5.drv, s5.regs, t9⟩ else
  let r4 := wr (wr (wr (wr (wr (wr (wr (wr s5.regs 0x0B 0x2F) 0x10 0xFF) 0x0D 0x09)
    0x3F 0x10) 0x20 0x00) 0x21 0x00) 0x22 0x00) 0x1F 0xAA
  let t10 := t9 ++ [.writeReg 0x0B 0x2F, .writeReg 0x10 0xFF, .writeReg 0x0D 0x09,
    .writeReg 0x3F 0x10, .writeReg 0x20 0x00, .writeReg 0x21 0x00,
    .writeReg 0x22 0x00, .writeReg 0x1F 0xAA]
  let s6 := setPreambleLength s5.drv r4 s5.drv.preambleLengthFSK
  let t11 := t10 ++ s6.trace
  if s6.ret ≠ 0 then ⟨s6.ret, s6.drv, s6.regs, t11⟩ else
  let s7 := setSyncWordFSK s6.drv s6.regs s6.drv.syncWordFSK s6.drv.syncWordLen
  let t12 := t11 ++ s7.trace
  if s7.ret ≠ 0 then ⟨s7.ret, s7.drv, s7.regs, t12⟩ else
  let s8 := setPacketConfig s7.drv s7.regs s7.drv.fixedLength s7.drv.crcOnFSK
  let t13 := t12 ++ s8.trace
  if s8.ret ≠ 0 then ⟨s8.ret, s8.drv, s8.regs, t13⟩ else
  let r5 := wr (wr (wr (wr s8.regs 0x32 255) 0x35 0xA0) 0x36 0x40) 0x40 0x00
  let t14 := t13 ++ [.writeReg 0x32 255, .writeReg 0x35 0xA0, .writeReg 0x36 0x40,
    .writeReg 0x40 0x00]
  ⟨s8.ret, s8.drv, r5, t14⟩

/-- Driver state established by the SX1276 default constructor (both
modulation families compiled in, so the default modulation is LoRa). -/
def drv0 : Driver :=
  { freq := 0, power := 17, useBoost := true, modulation := 2,
    bw := 0x70, sf := 7, cr := 2, preambleLength := 8, syncWord := 0x12,
    crcEnabled := true, bitrate := 4800, freqDev := 5000, rxBw := 0x15,
    syncWordFSK := [0x12, 0xAD], syncWordLen := 2, preambleLengthFSK := 5,
    fixedLength := false, crcOnFSK := true, lastRSSI := 0 }

/-- An all-zero register file used as a concrete starting point. -/
def regs0 : RegFile := fun _ => 0

/- Bitwise helper lemmas used to reason about the OP_MODE read-modify-write. -/

theorem or_and_eq_of_low (m c : Nat) : ((m &&& 127) ||| (c &&& 128)) &&& 128 = c &&& 128 := by
  apply Nat.eq_of_testBit_eq
  intro i
  have h127 : (127 : Nat) = 2 ^ 7 - 1 := by norm_num
  have h128 : (128 : Nat) = 2 ^ 7 := by norm_num
  simp only [Nat.testBit_land, Nat.testBit_lor, h127, h128,
    Nat.testBit_two_pow_sub_one, Nat.testBit_two_pow]
  by_cases h : 7 = i
  · subst h; simp
  · simp [h]

theorem or_and_low_bits (m c : Nat) : ((m &&& 127) ||| (c &&& 128)) &&& 7 = m &&& 7 := by
  apply Nat.eq_of_testBit_eq
  intro i
  have h127 : (127 : Nat) = 2 ^ 7 - 1 := by norm_num
  have h128 : (128 : Nat) = 2 ^ 7 := by norm_num
  have h7 : (7 : Nat) = 2 ^ 3 - 1 := by norm_num
  simp only [Nat.testBit_land, Nat.testBit_lor, h127, h128, h7,
    Nat.testBit_two_pow_sub_one, Nat.testBit_two_pow]
  by_cases hi : i < 3
  · have : i < 7 := by omega
    have h7i : ¬(7 = i) := by omega
    simp [hi, this, h7i]
  · simp [hi]

theorem bytes_reconstruct (x : Nat) (h : x < 16777216) :
    x / 65536 % 256 * 65536 + x / 256 % 256 * 256 + x % 256 = x := by
  omega

theorem and_255_eq_mod (x : Nat) : x &&& 255 = x % 256 := by
  have h := Nat.and_pow_two_sub_one_eq_mod x 8
  norm_num at h
  exact h

theorem testBit_15 (i : Nat) : Nat.testBit 15 i = decide (i < 4) := by
  have h := Nat.testBit_two_pow_sub_one 4 i
  norm_num at h
  exact h

theorem or_and_15 (s x : Nat) (hx : x < 16) (hs : s &&& 15 = 0) :
    (s ||| x) &&& 15 = x := by
  apply Nat.eq_of_testBit_eq
  intro i
  have hsb : (s.testBit i && decide (i < 4)) = false := by
    have h := congrArg (fun n => Nat.testBit n i) hs
    simpa [Nat.testBit_land, testBit_15] using h
  by_cases hi : i < 4
  · have hs' : s.testBit i = false := by simpa [hi] using hsb
    simp [Nat.testBit_land, Nat.testBit_lor, testBit_15, hi, hs']
  · have hxi : x.testBit i = false := by
      apply Nat.testBit_lt_two_pow
      calc x < 16 := hx
        _ = 2 ^ 4 := by norm_num
        _ ≤ 2 ^ i := Nat.pow_le_pow_right (by norm_num) (by omega)
    simp [Nat.testBit_land, Nat.testBit_lor, testBit_15, hi, hxi]

theorem nibble_low (c s : Nat) : ((c &&& 15) ||| (s <<< 4)) &&& 15 = c &&& 15 := by
  apply Nat.eq_of_testBit_eq
  intro i
  by_cases hi : i < 4
  · have h4 : ¬(4 ≤ i) := by omega
    simp [Nat.testBit_land, Nat.testBit_lor, Nat.testBit_shiftLeft, testBit_15, hi, h4]
  · simp [Nat.testBit_land, testBit_15, hi]

theorem nibble_high (c s : Nat) : ((c &&& 15) ||| (s <<< 4)) >>> 4 = s := by
  apply Nat.eq_of_testBit_eq
  intro i
  have h4 : ¬(4 + i < 4) := by omega
  have h4' : 4 ≤ 4 + i := by omega
  simp [Nat.testBit_shiftRight, Nat.testBit_land, Nat.testBit_lor,
    Nat.testBit_shiftLeft, testBit_15, h4, h4']

theorem one_or_high_and_7 (c : Nat) : (1 ||| c &&& 128) &&& 7 = 1 := by
  apply Nat.eq_of_testBit_eq
  intro i
  have t7 : Nat.testBit 7 i = decide (i < 3) := by
    have h := Nat.testBit_two_pow_sub_one 3 i
    norm_num at h
    exact h
  have t128 : Nat.testBit 128 i = decide (7 = i) := by
    have h := @Nat.testBit_two_pow 7 i
    norm_num at h
    exact h
  have t1 : Nat.testBit 1 i = decide (0 = i) := by
    have h := @Nat.testBit_two_pow 0 i
    norm_num at h
    exact h
  by_cases h0 : 0 = i
  · subst h0
    simp [Nat.testBit_land, Nat.testBit_lor, t1, t7, t128]
  · by_cases h3 : i < 3
    · have h7 : ¬(7 = i) := by omega
      simp [Nat.testBit_land, Nat.testBit_lor, t1, t7, t128, h0, h3, h7]
    · simp [Nat.testBit_land, Nat.testBit_lor, t1, t7, t128, h0, h3]

theorem setMode_ret (regs : RegFile) (mode : Nat) : (setMode regs mode).ret = 0 := by
  unfold setMode
  split <;> rfl

theorem standby_ret (regs : RegFile) : (standby regs).ret = 0 := setMode_ret regs 0x01

theorem sleep_ret (drv : Driver) (regs : RegFile) : (sleep drv regs).ret = 0 := by
  unfold sleep
  split <;> exact setMode_ret ..

/-- After standby, the mode bits (2:0) of OP_MODE are SX1276_MODE_STDBY = 1. -/
theorem standby_opmode (regs : RegFile) : (standby regs).regs 0x01 &&& 7 = 1 := by
  unfold standby setMode
  norm_num [wr]
  have := or_and_low_bits 1 (regs 1)
  simpa using this

/-- After standby, the modulation-family bit of OP_MODE is unchanged. -/
theorem standby_family (regs : RegFile) :
    (standby regs).regs 0x01 &&& 128 = regs 0x01 &&& 128 := by
  unfold standby setMode
  norm_num [wr]
  exact or_and_eq_of_low 1 (regs 1)

/-- C1: a setMode call whose requested mode value carries no explicit
modulation-family bits first reads OP_MODE back and re-applies the current
family bit, so bit 7 of the operating-mode register is unchanged by the
transition; in particular standby() (mode 0x01) preserves it. -/
theorem setMode_preserves_family (regs : RegFile) :
    (∀ mode : Nat, mode &&& 0x80 = 0 →
      (setMode regs mode).regs 0x01 &&& 0x80 = regs 0x01 &&& 0x80 ∧
      (setMode regs mode).trace =
        [Event.readReg 0x01 (regs 0x01),
         Event.writeReg 0x01 ((mode &&& 0x7F) ||| (regs 0x01 &&& 0x80))]) ∧
    (standby regs).regs 0x01 &&& 0x80 = regs 0x01 &&& 0x80 := by
  constructor
  · intro mode h
    unfold setMode
    rw [if_pos h]
    exact ⟨or_and_eq_of_low mode (regs 1), rfl⟩
  · exact standby_family regs

/-- Witness for C1 at a concrete register file and the standby mode word. -/
theorem setMode_preserves_family_witness :
    (setMode (fun _ => 0x85) 0x01).regs 0x01 &&& 0x80 = (0x85 : Nat) &&& 0x80 := by
  have h := (setMode_preserves_family (fun _ => 0x85)).1 0x01 (by decide)
  exact h.1

/-- C10: setMode returns SX1276_ERR_NONE (0) for every mode argument and
every chip state, hence standby() and sleep() can never fail; every error
check on their results in transmit/receive/config has an unreachable error
branch. -/
theorem setMode_never_fails :
    ∀ (regs : RegFile) (mode : Nat) (drv : Driver),
      (setMode regs mode).ret = 0 ∧ (standby regs).ret = 0 ∧ (sleep drv regs).ret = 0 :=
  fun regs mode drv => ⟨setMode_ret regs mode, standby_ret regs, sleep_ret drv regs⟩

/-- C2: for every frequency f in [137 MHz, 1020 MHz], setFrequency succeeds,
writes the truncated 24-bit value frf = (f << 19) / 32000000 to the FRF MSB,
MID and LSB registers in that order, the three registers reconstruct frf
exactly, and the frequency reconstructed as frf * 32 MHz / 2^19 lies within
one frequency-step unit below f (stated scaled by 2^19 to stay in the
integers: 0 ≤ f * 2^19 - frf * 32000000 < 32000000). -/
theorem setFrequency_roundtrip (drv : Driver) (regs : RegFile) (f : Int)
    (h1 : 137000000 ≤ f) (h2 : f ≤ 1020000000) :
    (setFrequency drv regs f).ret = 0 ∧
    (setFrequency drv regs f).trace =
      [Event.writeReg 0x06 ((frfOf f.toNat >>> 16) &&& 0xFF),
       Event.writeReg 0x07 ((frfOf f.toNat >>> 8) &&& 0xFF),
       Event.writeReg 0x08 (frfOf f.toNat &&& 0xFF)] ∧
    frfOf f.toNat < 2 ^ 24 ∧
    (setFrequency drv regs f).regs 0x06 * 2 ^ 16 +
      (setFrequency drv regs f).regs 0x07 * 2 ^ 8 +
      (setFrequency drv regs f).regs 0x08 = frfOf f.toNat ∧
    frfOf f.toNat * 32000000 ≤ f.toNat * 2 ^ 19 ∧
    f.toNat * 2 ^ 19 - frfOf f.toNat * 32000000 < 32000000 := by
  have hcond : ¬(f < 137000000 ∨ f > 1020000000) := by omega
  have hn2 : f.toNat ≤ 1020000000 := by omega
  have hfr : frfOf f.toNat = f.toNat * 524288 / 32000000 := by
    unfold frfOf
    rw [Nat.shiftLeft_eq]
  have h24 : frfOf f.toNat < 16777216 := by
    rw [hfr]
    omega
  have hlt : frfOf f.toNat < 2 ^ 24 := by
    calc frfOf f.toNat < 16777216 := h24
      _ = 2 ^ 24 := by norm_num
  have e19 : (2 : Nat) ^ 19 = 524288 := by norm_num
  have e16 : (2 : Nat) ^ 16 = 65536 := by norm_num
  have e8 : (2 : Nat) ^ 8 = 256 := by norm_num
  refine ⟨?_, ?_, hlt, ?_, ?_, ?_⟩
  · simp [setFrequency, hcond]
  · simp [setFrequency, hcond]
  · have hr : (setFrequency drv regs f).regs 0x06 = (frfOf f.toNat >>> 16) &&& 0xFF ∧
        (setFrequency drv regs f).regs 0x07 = (frfOf f.toNat >>> 8) &&& 0xFF ∧
        (setFrequency drv regs f).regs 0x08 = frfOf f.toNat &&& 0xFF := by
      refine ⟨?_, ?_, ?_⟩ <;> simp [setFrequency, hcond, wr]
    rw [hr.1, hr.2.1, hr.2.2, Nat.shiftRight_eq_div_pow, Nat.shiftRight_eq_div_pow,
      and_255_eq_mod, and_255_eq_mod, and_255_eq_mod, e16, e8]
    exact bytes_reconstruct (frfOf f.toNat) h24
  · rw [hfr, e19]
    omega
  · rw [hfr, e19]
    omega

/-- Witness for C2: setFrequency at 915 MHz from the default driver state. -/
theorem setFrequency_roundtrip_witness :
    (137000000 : Int) ≤ 915000000 ∧ (915000000 : Int) ≤ 1020000000 ∧
    (setFrequency drv0 regs0 915000000).ret = 0 ∧
    frfOf (Int.toNat 915000000) < 2 ^ 24 ∧
    (setFrequency drv0 regs0 915000000).regs 0x06 * 2 ^ 16 +
      (setFrequency drv0 regs0 915000000).regs 0x07 * 2 ^ 8 +
      (setFrequency drv0 regs0 915000000).regs 0x08 = frfOf (Int.toNat 915000000) := by
  have h := setFrequency_roundtrip drv0 regs0 915000000 (by norm_num) (by norm_num)
  exact ⟨by norm_num, by norm_num, h.1, h.2.2.1, h.2.2.2.1⟩

/-- C5: setPower never fails and always writes both PA_CONFIG (0x09) and
PA_DAC (0x4D); on the boost path the effective output power (register-level
power, plus the 3 dB offset re-added when the high-power DAC is on) is
clamped to [2, 20] dBm, requests above 17 dBm set PA_DAC to 0x87 and
subtract 3 from the register-level power, PA_CONFIG is the boost selector
ORed with (power - 2); on the RFO path power is clamped to [-1, 14] with
PA_CONFIG the RFO selector ORed with (power + 1); the 4-bit output-power
field of PA_CONFIG never exceeds 15. -/
theorem setPower_spec (drv : Driver) (regs : RegFile) (p : Int) (b : Bool) :
    (setPower drv regs p b).ret = 0 ∧
    (setPower drv regs p b).trace =
      [Event.writeReg 0x09 (paConfigOf p b), Event.writeReg 0x4D (paDacOf p b)] ∧
    (setPower drv regs p b).regs 0x09 = paConfigOf p b ∧
    (setPower drv regs p b).regs 0x4D = paDacOf p b ∧
    (b = true →
      2 ≤ boostLevel p ∧ boostLevel p ≤ 17 ∧
      2 ≤ (if p > 17 then boostLevel p + 3 else boostLevel p) ∧
      (if p > 17 then boostLevel p + 3 else boostLevel p) ≤ 20 ∧
      (p > 17 → paDacOf p b = 0x87 ∧ boostLevel p = (if p > 20 then 20 else p) - 3) ∧
      (¬(p > 17) → paDacOf p b = 0x84) ∧
      paConfigOf p b = 0x80 ||| (boostLevel p - 2).toNat ∧
      paConfigOf p b &&& 0x0F = (boostLevel p - 2).toNat ∧
      (boostLevel p - 2).toNat ≤ 15) ∧
    (b = false →
      -1 ≤ rfoLevel p ∧ rfoLevel p ≤ 14 ∧
      paConfigOf p b = 0x70 ||| (rfoLevel p + 1).toNat ∧
      paConfigOf p b &&& 0x0F = (rfoLevel p + 1).toNat ∧
      (rfoLevel p + 1).toNat ≤ 15) := by
  refine ⟨rfl, rfl, by simp [setPower, wr], by simp [setPower, wr], ?_, ?_⟩
  · intro hb
    subst hb
    have hbl : 2 ≤ boostLevel p ∧ boostLevel p ≤ 17 := by
      unfold boostLevel
      split_ifs <;> omega
    have hlt16 : (boostLevel p - 2).toNat < 16 := by omega
    have hmask : (0x80 ||| (boostLevel p - 2).toNat) &&& 0x0F = (boostLevel p - 2).toNat :=
      or_and_15 0x80 _ hlt16 (by decide)
    refine ⟨hbl.1, hbl.2, ?_, ?_, ?_, ?_, by simp [paConfigOf], ?_, by omega⟩
    · split <;> omega
    · have : boostLevel p = (if p > 17 then (if p > 20 then 20 else p) - 3
          else if p < 2 then 2 else p) := rfl
      rw [this]
      split_ifs <;> omega
    · intro hp
      exact ⟨by simp [paDacOf, hp], by simp [boostLevel, hp]⟩
    · intro hp
      simp [paDacOf, hp]
    · simpa [paConfigOf] using hmask
  · intro hb
    subst hb
    have hrl : -1 ≤ rfoLevel p ∧ rfoLevel p ≤ 14 := by
      unfold rfoLevel
      split_ifs <;> omega
    have hlt16 : (rfoLevel p + 1).toNat < 16 := by omega
    have hmask : (0x70 ||| (rfoLevel p + 1).toNat) &&& 0x0F = (rfoLevel p + 1).toNat :=
      or_and_15 0x70 _ hlt16 (by decide)
    exact ⟨hrl.1, hrl.2, by simp [paConfigOf], by simpa [paConfigOf] using hmask, by omega⟩

/-- Witness for C5 at +18 dBm boosted (high-power DAC path) and +5 dBm on
the RFO path. -/
theorem setPower_spec_witness :
    paDacOf 18 true = 0x87 ∧ boostLevel 18 = 15 ∧
    paConfigOf 18 true &&& 0x0F = 13 ∧
    rfoLevel 5 = 5 ∧ paConfigOf 5 false &&& 0x0F = 6 := by
  have hb := (setPower_spec drv0 regs0 18 true).2.2.2.2.1 rfl
  have hr := (setPower_spec drv0 regs0 5 false).2.2.2.2.2 rfl
  refine ⟨(hb.2.2.2.2.1 (by norm_num)).1, ?_, ?_, ?_, ?_⟩
  · have := (hb.2.2.2.2.1 (by norm_num)).2
    norm_num at this
    exact this
  · have := hb.2.2.2.2.2.2.2.1
    norm_num [boostLevel] at this
    exact this
  · norm_num [rfoLevel]
  · have := hr.2.2.2.1
    norm_num [rfoLevel] at this
    exact this

/-- C8: setSpreadingFactor rejects every argument outside [6, 12] with the
invalid-spreading-factor error (-7); an accepted argument is written to the
high nibble of MODEM_CONFIG_2 with the low nibble preserved, and the
detection-optimize / detection-threshold registers always receive the
alternate pair (0x05, 0x0C) for SF6 and the standard pair (0x03, 0x0A) for
SF 7-12. -/
theorem setSpreadingFactor_spec (drv : Driver) (regs : RegFile) (sf : Nat) :
    (sf < 6 ∨ sf > 12 → setSpreadingFactor drv regs sf = ⟨-7, drv, regs, []⟩) ∧
    (6 ≤ sf → sf ≤ 12 →
      (setSpreadingFactor drv regs sf).ret = 0 ∧
      (setSpreadingFactor drv regs sf).regs 0x1E &&& 0x0F = regs 0x1E &&& 0x0F ∧
      (setSpreadingFactor drv regs sf).regs 0x1E >>> 4 = sf ∧
      (sf = 6 → (setSpreadingFactor drv regs sf).trace =
        [Event.readReg 0x1E (regs 0x1E),
         Event.writeReg 0x1E ((regs 0x1E &&& 0x0F) ||| (sf <<< 4)),
         Event.writeReg 0x31 0x05, Event.writeReg 0x37 0x0C]) ∧
      (sf ≠ 6 → (setSpreadingFactor drv regs sf).trace =
        [Event.readReg 0x1E (regs 0x1E),
         Event.writeReg 0x1E ((regs 0x1E &&& 0x0F) ||| (sf <<< 4)),
         Event.writeReg 0x31 0x03, Event.writeReg 0x37 0x0A])) := by
  constructor
  · intro h
    unfold setSpreadingFactor
    rw [if_pos h]
  · intro h1 h2
    have hcond : ¬(sf < 6 ∨ sf > 12) := by omega
    have hregs : (setSpreadingFactor drv regs sf).regs 0x1E =
        (regs 0x1E &&& 0x0F) ||| (sf <<< 4) := by
      unfold setSpreadingFactor
      rw [if_neg hcond]
      split <;> simp [wr]
    refine ⟨?_, ?_, ?_, ?_, ?_⟩
    · unfold setSpreadingFactor
      rw [if_neg hcond]
      split <;> rfl
    · rw [hregs]
      exact nibble_low (regs 0x1E) sf
    · rw [hregs]
      exact nibble_high (regs 0x1E) sf
    · intro h6
      simp [setSpreadingFactor, hcond, h6]
    · intro h6
      simp [setSpreadingFactor, hcond, h6]

/-- Witness for C8 at the rejected input 13 and the accepted inputs 6, 7. -/
theorem setSpreadingFactor_spec_witness :
    setSpreadingFactor drv0 regs0 13 = ⟨-7, drv0, regs0, []⟩ ∧
    (setSpreadingFactor drv0 regs0 6).ret = 0 ∧
    (setSpreadingFactor drv0 regs0 6).regs 0x1E >>> 4 = 6 ∧
    (setSpreadingFactor drv0 regs0 7).trace =
      [Event.readReg 0x1E (regs0 0x1E),
       Event.writeReg 0x1E ((regs0 0x1E &&& 0x0F) ||| (7 <<< 4)),
       Event.writeReg 0x31 0x03, Event.writeReg 0x37 0x0A] := by
  refine ⟨(setSpreadingFactor_spec drv0 regs0 13).1 (by norm_num), ?_, ?_, ?_⟩
  · exact ((setSpreadingFactor_spec drv0 regs0 6).2 (by norm_num) (by norm_num)).1
  · exact ((setSpreadingFactor_spec drv0 regs0 6).2 (by norm_num) (by norm_num)).2.2.1
  · exact ((setSpreadingFactor_spec drv0 regs0 7).2 (by norm_num) (by norm_num)).2.2.2.2
      (by norm_num)

/-- C3: every validation failure is detected before any register write or
bus access and leaves the chip registers and the stored configuration
unchanged: out-of-range setFrequency, oversize transmit, and out-of-range
spreading factor, coding rate, bandwidth, bitrate, frequency deviation and
FSK sync-word length all return their distinguished error with an empty bus
trace, unchanged registers and unchanged driver state. -/
theorem validation_before_mutation (drv : Driver) (regs : RegFile) :
    (∀ f : Int, f < 137000000 ∨ f > 1020000000 →
      setFrequency drv regs f = ⟨-9, drv, regs, []⟩) ∧
    (∀ (data : List Nat) (pin : Nat → Bool) (elapsed irq2 : Nat → Nat) (fuel : Nat),
      data.length > 255 →
      transmit drv regs data pin elapsed irq2 fuel = ⟨some (-2), regs, []⟩) ∧
    (∀ sf, sf < 6 ∨ sf > 12 → setSpreadingFactor drv regs sf = ⟨-7, drv, regs, []⟩) ∧
    (∀ cr, cr < 2 ∨ cr > 8 → setCodingRate drv regs cr = ⟨-8, drv, regs, []⟩) ∧
    (∀ bw, bw > 0x90 → setBandwidth drv regs bw = ⟨-6, drv, regs, []⟩) ∧
    (∀ br, br < 1200 ∨ br > 300000 → setBitrate drv regs br = ⟨-11, drv, regs, []⟩) ∧
    (∀ fd, fd ≠ 0 → fd < 600 ∨ fd > 200000 →
      setFrequencyDeviation drv regs fd = ⟨-12, drv, regs, []⟩) ∧
    (∀ sw len, len < 1 ∨ len > 8 →
      setSyncWordFSK drv regs sw len = ⟨-13, drv, regs, []⟩) := by
  refine ⟨?_, ?_, ?_, ?_, ?_, ?_, ?_, ?_⟩
  · intro f h
    unfold setFrequency
    rw [if_pos h]
  · intro data pin elapsed irq2 fuel h
    unfold transmit
    rw [if_pos h]
  · intro sf h
    unfold setSpreadingFactor
    rw [if_pos h]
  · intro cr h
    unfold setCodingRate
    rw [if_pos h]
  · intro bw h
    unfold setBandwidth
    rw [if_pos h]
  · intro br h
    unfold setBitrate
    rw [if_pos h]
  · intro fd h1 h2
    unfold setFrequencyDeviation
    rw [if_pos ⟨h1, h2⟩]
  · intro sw len h
    unfold setSyncWordFSK
    rw [if_pos h]

/-- Witness for C3 at concrete invalid inputs, including a 256-byte
transmit. -/
theorem validation_before_mutation_witness :
    setFrequency drv0 regs0 100 = ⟨-9, drv0, regs0, []⟩ ∧
    transmit drv0 regs0 (List.replicate 256 0) (fun _ => false) (fun _ => 0)
      (fun _ => 0) 1 = ⟨some (-2), regs0, []⟩ ∧
    setSpreadingFactor drv0 regs0 5 = ⟨-7, drv0, regs0, []⟩ ∧
    setCodingRate drv0 regs0 9 = ⟨-8, drv0, regs0, []⟩ ∧
    setBandwidth drv0 regs0 0x91 = ⟨-6, drv0, regs0, []⟩ ∧
    setBitrate drv0 regs0 100 = ⟨-11, drv0, regs0, []⟩ ∧
    setFrequencyDeviation drv0 regs0 300 = ⟨-12, drv0, regs0, []⟩ ∧
    setSyncWordFSK drv0 regs0 [1] 9 = ⟨-13, drv0, regs0, []⟩ := by
  obtain ⟨h1, h2, h3, h4, h5, h6, h7, h8⟩ := validation_before_mutation drv0 regs0
  exact ⟨h1 100 (by norm_num), h2 _ _ _ _ _ (by rw [List.length_replicate]; omega),
    h3 5 (by norm_num),
    h4 9 (by norm_num), h5 0x91 (by norm_num), h6 100 (by norm_num),
    h7 300 (by norm_num) (by norm_num), h8 [1] 9 (by norm_num)⟩

/-- C4: whenever transmit reports the tx-timeout error (-3) or receive
reports the rx-timeout error (-4), the driver has issued a standby mode
transition before returning, so the mode bits of OP_MODE are left at
standby (1) and the chip is not left transmitting or receiving. -/
theorem timeout_forces_standby (drv : Driver) (regs : RegFile) (data : List Nat)
    (pin : Nat → Bool) (elapsed irq2 : Nat → Nat) (fuel maxLen : Nat)
    (env : RxEnv) (fuel2 : Nat) :
    ((transmit drv regs data pin elapsed irq2 fuel).ret = some (-3) →
      (transmit drv regs data pin elapsed irq2 fuel).regs 0x01 &&& 7 = 1) ∧
    ((receive drv regs maxLen env fuel2).ret = some (-4) →
      (receive drv regs maxLen env fuel2).regs 0x01 &&& 7 = 1) := by
  constructor
  · intro h
    by_cases hlen : data.length > 255
    · simp [transmit, hlen] at h
    · by_cases hm2 : drv.modulation = 2
      · rcases hdp : dioPoll pin elapsed 5000 0 fuel with _ | b
        · simp [transmit, hlen, hm2, standby_ret, setMode_ret, hdp] at h
        · cases b
          · simp only [transmit, hlen, hm2, standby_ret, setMode_ret, hdp]
            simp [standby_ret, setMode_ret]
            exact standby_opmode _
          · simp only [transmit, hlen, hm2, standby_ret, setMode_ret, hdp]
            simp [standby_ret, setMode_ret]
            exact standby_opmode _
      · by_cases hm01 : drv.modulation = 0 ∨ drv.modulation = 1
        · rcases hfp : (fskPoll irq2 elapsed 0x08 5000 0 fuel).1 with _ | b
          · simp [transmit, hlen, hm2, hm01, standby_ret, setMode_ret, hfp] at h
          · cases b
            · simp only [transmit]
              simp [hlen, hm2, hm01, standby_ret, setMode_ret, hfp]
              exact standby_opmode _
            · simp only [transmit]
              simp [hlen, hm2, hm01, standby_ret, setMode_ret, hfp]
              exact standby_opmode _
        · simp [transmit, hlen, hm2, hm01, standby_ret] at h
  · intro h
    by_cases hm2 : drv.modulation = 2
    · rcases hdp : dioPoll env.pin env.elapsed 10000 0 fuel2 with _ | b
      · simp [receive, hm2, standby_ret, setMode_ret, hdp] at h
      · cases b
        · simp only [receive]
          simp [hm2, standby_ret, setMode_ret, hdp]
          exact standby_opmode _
        · by_cases hc : env.irqAfter &&& 0x20 ≠ 0
          · simp [receive, hm2, standby_ret, setMode_ret, hdp, hc] at h
          · simp [receive, hm2, standby_ret, setMode_ret, hdp, hc] at h
            omega
    · by_cases hm01 : drv.modulation = 0 ∨ drv.modulation = 1
      · rcases hfp : (fskPoll env.irq2 env.elapsed 0x04 10000 0 fuel2).1 with _ | b
        · simp [receive, hm2, hm01, standby_ret, setMode_ret, hfp] at h
        · cases b
          · simp only [receive]
            simp [hm2, hm01, standby_ret, setMode_ret, hfp]
            exact standby_opmode _
          · by_cases hcrc : drv.crcOnFSK = true ∧ env.irqCrc &&& 0x02 = 0
            · simp [receive, hm2, hm01, standby_ret, setMode_ret, hfp, hcrc] at h
            · by_cases hfix : drv.fixedLength = true
              · simp [receive, hm2, hm01, standby_ret, setMode_ret, hfp, hcrc, hfix] at h
                omega
              · simp [receive, hm2, hm01, standby_ret, setMode_ret, hfp, hcrc, hfix] at h
                omega
      · simp [receive, hm2, hm01] at h

/-- Witness for C4: an environment whose DIO0 line never asserts and whose
clock exceeds the limit at once; both transmit and receive time out into
standby. -/
theorem timeout_forces_standby_witness :
    (transmit drv0 regs0 [] (fun _ => false) (fun _ => 6000) (fun _ => 0) 1).ret
        = some (-3) ∧
    (transmit drv0 regs0 [] (fun _ => false) (fun _ => 6000) (fun _ => 0) 1).regs 0x01
        &&& 7 = 1 ∧
    (receive drv0 regs0 16
        ⟨fun _ => false, fun _ => 20000, fun _ => 0, 0, 0, 0, 0, 0, 0, fun _ => 0⟩ 1).ret
        = some (-4) ∧
    (receive drv0 regs0 16
        ⟨fun _ => false, fun _ => 20000, fun _ => 0, 0, 0, 0, 0, 0, 0, fun _ => 0⟩ 1).regs 0x01
        &&& 7 = 1 := by
  have h := timeout_forces_standby drv0 regs0 [] (fun _ => false) (fun _ => 6000)
    (fun _ => 0) 1 16 ⟨fun _ => false, fun _ => 20000, fun _ => 0, 0, 0, 0, 0, 0, 0,
      fun _ => 0⟩ 1
  exact ⟨by decide, h.1 (by decide), by decide, h.2 (by decide)⟩

/-- C6: in LoRa mode, when the poll completes and the payload-CRC-error IRQ
flag (0x20) is set, receive clears the IRQ flags, puts the chip into
standby, and returns the crc-mismatch error (-5) with no payload bytes
written to the caller's buffer and no FIFO read on the bus. -/
theorem lora_crc_mismatch_spec (drv : Driver) (regs : RegFile) (maxLen : Nat)
    (env : RxEnv) (fuel : Nat) (hm : drv.modulation = 2)
    (hp : dioPoll env.pin env.elapsed 10000 0 fuel = some true)
    (hc : env.irqAfter &&& 0x20 ≠ 0) :
    (receive drv regs maxLen env fuel).ret = some (-5) ∧
    (receive drv regs maxLen env fuel).out = [] ∧
    (receive drv regs maxLen env fuel).regs 0x01 &&& 7 = 1 ∧
    Event.writeReg 0x12 0xFF ∈ (receive drv regs maxLen env fuel).trace ∧
    ∀ n, Event.fifoRd n ∉ (receive drv regs maxLen env fuel).trace := by
  refine ⟨?_, ?_, ?_, ?_, ?_⟩
  · simp [receive, hm, hp, hc, standby_ret, setMode_ret]
  · simp [receive, hm, hp, hc, standby_ret, setMode_ret]
  · simp only [receive]
    simp [hm, hp, hc, standby_ret, setMode_ret]
    exact standby_opmode _
  · simp [receive, hm, hp, hc, standby_ret, setMode_ret]
  · intro n
    simp [receive, hm, hp, hc, standby_ret, setMode_ret, standby, setMode, wr,
      (by decide : (1 : Nat) &&& 128 = 0), (by decide : (5 : Nat) &&& 128 = 0)]

/-- Witness for C6: a concrete environment in which DIO0 is high at once
and the CRC-error flag is read back set. -/
theorem lora_crc_mismatch_spec_witness :
    (receive drv0 regs0 32
        ⟨fun _ => true, fun _ => 0, fun _ => 0, 0x20, 0, 7, 0, 0, 0, fun _ => 9⟩ 1).ret
      = some (-5) ∧
    (receive drv0 regs0 32
        ⟨fun _ => true, fun _ => 0, fun _ => 0, 0x20, 0, 7, 0, 0, 0, fun _ => 9⟩ 1).out
      = [] ∧
    (receive drv0 regs0 32
        ⟨fun _ => true, fun _ => 0, fun _ => 0, 0x20, 0, 7, 0, 0, 0, fun _ => 9⟩ 1).regs 0x01
      &&& 7 = 1 := by
  have h := lora_crc_mismatch_spec drv0 regs0 32
    ⟨fun _ => true, fun _ => 0, fun _ => 0, 0x20, 0, 7, 0, 0, 0, fun _ => 9⟩ 1
    (by decide) (by decide) (by decide)
  exact ⟨h.1, h.2.1, h.2.2.1⟩

/-- C9 counterexample: with a stored modulation value matching no enabled
family (3), transmit returns success (0), not the wrong-modem error (-14),
contradicting the claim for the transmit half. -/
theorem wrong_modem_counterexample :
    (transmit {drv0 with modulation := 3} regs0 []
        (fun _ => false) (fun _ => 0) (fun _ => 0) 1).ret = some 0 ∧
    (transmit {drv0 with modulation := 3} regs0 []
        (fun _ => false) (fun _ => 0) (fun _ => 0) 1).ret ≠ some (-14) := by
  constructor
  · rfl
  · decide

/-- C9 amended: when the stored modulation matches no enabled capability,
receive returns the wrong-modem error (-14), but transmit returns the
result of its initial standby call (success, 0) with only the standby bus
traffic — it performs no FIFO write and never reports wrong-modem. -/
theorem wrong_modem_amended (drv : Driver) (regs : RegFile) (data : List Nat)
    (pin : Nat → Bool) (elapsed irq2 : Nat → Nat) (fuel maxLen : Nat)
    (env : RxEnv) (fuel2 : Nat)
    (h0 : drv.modulation ≠ 0) (h1 : drv.modulation ≠ 1) (h2 : drv.modulation ≠ 2)
    (hlen : data.length ≤ 255) :
    (receive drv regs maxLen env fuel2).ret = some (-14) ∧
    transmit drv regs data pin elapsed irq2 fuel =
      ⟨some 0, (standby regs).regs, (standby regs).trace⟩ := by
  constructor
  · simp [receive, h0, h1, h2]
  · have hl : ¬(data.length > 255) := by omega
    simp [transmit, hl, h0, h1, h2, standby_ret]

/-- Witness for C9's amended statement at the concrete modulation value 3. -/
theorem wrong_modem_amended_witness :
    (receive {drv0 with modulation := 3} regs0 8
        ⟨fun _ => false, fun _ => 0, fun _ => 0, 0, 0, 0, 0, 0, 0, fun _ => 0⟩ 1).ret
      = some (-14) ∧
    transmit {drv0 with modulation := 3} regs0 [1, 2]
        (fun _ => false) (fun _ => 0) (fun _ => 0) 1 =
      ⟨some 0, (standby regs0).regs, (standby regs0).trace⟩ := by
  exact wrong_modem_amended {drv0 with modulation := 3} regs0 [1, 2]
    (fun _ => false) (fun _ => 0) (fun _ => 0) 1 8
    ⟨fun _ => false, fun _ => 0, fun _ => 0, 0, 0, 0, 0, 0, 0, fun _ => 0⟩ 1
    (by decide) (by decide) (by decide) (by decide)

/-- C7 counterexample: a concrete setRxBandwidth call writes only the
RX-bandwidth register; no write to the AFC-bandwidth register (0x13)
appears in its trace, contradicting the claim that the mirror happens on
each setter call. -/
theorem setRxBandwidth_no_mirror_counterexample :
    (setRxBandwidth drv0 regs0 0x02).trace = [Event.writeReg 0x12 0x02] ∧
    Event.writeReg 0x13 0x02 ∉ (setRxBandwidth drv0 regs0 0x02).trace := by
  constructor
  · rfl
  · decide

/-- C7 amended: setRxBandwidth writes the given encoding to the
RX-bandwidth register only — every register write in its trace targets
0x12 — while the AFC-bandwidth register (0x13) is written with the same
stored value during the full FSK bring-up sequence configFSK (shown here
at the driver's default FSK configuration at 434 MHz), not on each setter
call. -/
theorem setRxBandwidth_spec (drv : Driver) (regs : RegFile) (v : Nat) :
    setRxBandwidth drv regs v =
      ⟨0, {drv with rxBw := v}, wr regs 0x12 v, [Event.writeReg 0x12 v]⟩ ∧
    (∀ a w, Event.writeReg a w ∈ (setRxBandwidth drv regs v).trace → a = 0x12) ∧
    Event.writeReg 0x12 0x15 ∈
      (configFSK {drv0 with modulation := 0, freq := 434000000} regs0).trace ∧
    Event.writeReg 0x13 0x15 ∈
      (configFSK {drv0 with modulation := 0, freq := 434000000} regs0).trace := by
  refine ⟨rfl, ?_, by decide, by decide⟩
  intro a w h
  simp [setRxBandwidth] at h
  exact h.1

/-- Witness for C7's amended statement at a concrete setter call. -/
theorem setRxBandwidth_spec_witness :
    setRxBandwidth drv0 regs0 0x0B =
      ⟨0, {drv0 with rxBw := 0x0B}, wr regs0 0x12 0x0B, [Event.writeReg 0x12 0x0B]⟩ ∧
    (Event.writeReg 0x12 0x0B ∈ (setRxBandwidth drv0 regs0 0x0B).trace ∧
      (0x12 : Nat) = 0x12) ∧
    Event.writeReg 0x13 0x15 ∈
      (configFSK {drv0 with modulation := 0, freq := 434000000} regs0).trace := by
  have h := setRxBandwidth_spec drv0 regs0 0x0B
  exact ⟨h.1, ⟨by decide, h.2.1 0x12 0x0B (by decide)⟩, h.2.2.2⟩

end SX1276
